/-
Verification of the stock-dashboard repository against its specification.

The development shallowly embeds the relevant Python functions of
`src/modules/data_handler.py`, `src/modules/charts.py` and `src/main.py`
as executable Lean definitions and proves (or refutes) the spec claims
about them.

Modelling conventions:
  * Python numbers are modelled as `Nat` / `ℚ` (exact arithmetic).  The
    two-decimal rendering of `f"{x:.2f}"` is modelled by exact decimal
    rounding with round-half-to-even, which coincides with CPython's
    float formatting on every value appearing in the claims.
  * Wall-clock instants are microsecond counts; `datetime.timedelta.seconds`
    of a non-negative delta is `(Δµs / 10^6) % 86400`.
  * Absent Python values (`None`, missing dict keys) are `Option.none`;
    a caught exception of a provider call is `Except.error`.
-/
import Mathlib

namespace StockDashboard

/-! ## Decimal formatting helpers (modelling CPython's `format`) -/

/-- Round the exact rational `a / b` to the nearest integer, ties to even
(the rounding CPython's `format(..., '.0f')`/`'.2f'` applies to the decimal
it prints). -/
def roundHalfEven (a b : Nat) : Nat :=
  let q := a / b
  let r := a % b
  if b < 2 * r then q + 1
  else if 2 * r < b then q
  else if q % 2 = 0 then q else q + 1

/-- Render the exact rational `num / den` with two decimal places,
as `f"{num/den:.2f}"` does for exactly representable quotients. -/
def formatTwoDecimals (num den : Nat) : String :=
  let scaled := roundHalfEven (num * 100) den
  let ip := scaled / 100
  let fp := scaled % 100
  toString ip ++ "." ++ (if fp < 10 then "0" else "") ++ toString fp

/-- Insert thousands separators into a natural number, as the `,` flag of
`f"{n:,.0f}"` does: commas every three digits from the right. -/
def thousandsSep (n : Nat) : String :=
  let rev := (toString n).toList.reverse
  let withCommas := (rev.enum.map
    (fun p => if p.1 ≠ 0 ∧ p.1 % 3 = 0 then [',', p.2] else [p.2])).flatten
  ⟨withCommas.reverse⟩

/-! ## `data_handler.format_market_cap` and `data_handler.format_volume`

Python (data_handler.py 133-151): the guard `if not market_cap or
market_cap == 'N/A'` treats every falsy value — `None`, the string
`'N/A'`, and the number `0` — as absent.  An absent numeric input is
`none`; the falsy-zero check is explicit. -/

/-- Embedding of `format_market_cap` (data_handler.py 133-144). -/
def format_market_cap (market_cap : Option Nat) : String :=
  match market_cap with
  | none => "N/A"
  | some v =>
    if v = 0 then "N/A"
    else if 10 ^ 12 ≤ v then "₹" ++ formatTwoDecimals v (10 ^ 12) ++ "T"
    else if 10 ^ 9 ≤ v then "₹" ++ formatTwoDecimals v (10 ^ 9) ++ "B"
    else if 10 ^ 6 ≤ v then "₹" ++ formatTwoDecimals v (10 ^ 6) ++ "M"
    else "₹" ++ thousandsSep v

/-- Embedding of `format_volume` (data_handler.py 147-151). -/
def format_volume (volume : Option Nat) : String :=
  match volume with
  | none => "N/A"
  | some v => if v = 0 then "N/A" else thousandsSep v

/-! ## `data_handler.get_market_status`

Python (data_handler.py 80-102).  The current instant is taken in the
Asia/Kolkata zone; `opening_time`/`closing_time` are the same instant with
the time-of-day replaced by 09:15:00.000000 / 15:30:00.000000, so the
comparisons only involve the time of day.  We model the time of day as a
microsecond count `nowUs` (0 ≤ nowUs < 86 400 000 000) together with the
Python weekday (0 = Monday, …, 6 = Sunday).  Both `timedelta`s taken in
the function are non-negative and smaller than one day, so their
`.seconds` field is exactly `Δµs / 10^6`. -/

/-- Result record of `get_market_status`. -/
structure MarketStatus where
  is_open : Bool
  status : String
  deriving DecidableEq, Repr

/-- Session open boundary: 09:15:00 IST as microseconds of day. -/
def marketOpenUs : Nat := 33300 * 1000000

/-- Session close boundary: 15:30:00 IST as microseconds of day. -/
def marketCloseUs : Nat := 55800 * 1000000

/-- Embedding of `get_market_status` (data_handler.py 80-102). -/
def get_market_status (weekday nowUs : Nat) : MarketStatus :=
  if 5 ≤ weekday then ⟨false, "Closed (Weekend)"⟩
  else if nowUs < marketOpenUs then
    let s := (marketOpenUs - nowUs) / 1000000
    ⟨false, "Opens in " ++ toString (s / 3600) ++ "h " ++ toString ((s / 60) % 60) ++ "m"⟩
  else if marketCloseUs < nowUs then ⟨false, "Closed"⟩
  else
    let s := (marketCloseUs - nowUs) / 1000000
    ⟨true, "Open (" ++ toString (s / 3600) ++ "h " ++ toString ((s / 60) % 60) ++ "m left)"⟩

/-- Claim C1, counterexample: at exactly 15:30:00.000000 on a weekday the code
is still in the `now > closing_time`-false branch, so it reports the market
open with countdown "Open (0h 0m left)", while the claim requires closed
with status "Closed" at 15:30:00. -/
theorem c1_counterexample :
    (get_market_status 0 (55800 * 1000000)).is_open = true ∧
    (get_market_status 0 (55800 * 1000000)).status = "Open (0h 0m left)" := by
  refine ⟨by decide, by decide⟩

/-- Claim C1, amended: on a weekday the market is reported open exactly from
09:15:00.000000 through 15:30:00.000000 *inclusive*; strictly after
15:30:00 the status is "Closed" with no countdown; before 09:15:00 it is
closed with an "Opens in {H}h {M}m" countdown (hours and minutes truncated
from the difference to the open boundary); any Saturday/Sunday instant
gives "Closed (Weekend)". -/
theorem c1_market_status (w n : Nat) :
    (5 ≤ w → get_market_status w n = ⟨false, "Closed (Weekend)"⟩) ∧
    (w < 5 → ((get_market_status w n).is_open = true ↔
      (33300 * 1000000 ≤ n ∧ n ≤ 55800 * 1000000))) ∧
    (w < 5 → 55800 * 1000000 < n → get_market_status w n = ⟨false, "Closed"⟩) ∧
    (w < 5 → n < 33300 * 1000000 →
      get_market_status w n = ⟨false,
        "Opens in " ++ toString (((33300 * 1000000 - n) / 1000000) / 3600) ++
        "h " ++ toString ((((33300 * 1000000 - n) / 1000000) / 60) % 60) ++ "m"⟩) := by
  unfold get_market_status marketOpenUs marketCloseUs
  refine ⟨fun h => ?_, fun h => ?_, fun h h2 => ?_, fun h h2 => ?_⟩
  · rw [if_pos h]
  · rw [if_neg (by omega)]
    by_cases h1 : n < 33300 * 1000000
    · rw [if_pos h1]; simp; omega
    · rw [if_neg h1]
      by_cases h2 : 55800 * 1000000 < n
      · rw [if_pos h2]; simp; omega
      · rw [if_neg h2]; simp; omega
  · rw [if_neg (by omega), if_neg (by omega), if_pos h2]
  · rw [if_neg (by omega), if_pos h2]

/-- Witness for `c1_market_status` at concrete weekday/time inputs. -/
theorem c1_market_status_witness :
    get_market_status 6 43200000000 = ⟨false, "Closed (Weekend)"⟩ ∧
    (get_market_status 0 40000000000).is_open = true ∧
    get_market_status 0 60000000000 = ⟨false, "Closed"⟩ ∧
    get_market_status 0 33240000000 = ⟨false, "Opens in 0h 1m"⟩ :=
  ⟨(c1_market_status 6 43200000000).1 (by decide),
   ((c1_market_status 0 40000000000).2.1 (by decide)).mpr (by decide),
   (c1_market_status 0 60000000000).2.2.1 (by decide) (by decide),
   ((c1_market_status 0 33240000000).2.2.2 (by decide) (by decide)).trans (by decide)⟩

/-- Claim C3, counterexample: the claim expects 750 000 to format as "₹0.75M",
but 750 000 < 10^6 fails the `market_cap >= 1e6` guard, so the code takes the
thousands-separator branch and returns "₹750,000". -/
theorem c3_counterexample :
    format_market_cap (some 750000) = "₹750,000" ∧
    format_market_cap (some 750000) ≠ "₹0.75M" := by
  refine ⟨by decide, by decide⟩

/-- Claim C3, amended: `format_market_cap` maps 2 500 000 000 000 to "₹2.50T",
3 200 000 000 to "₹3.20B", 750 000 to "₹750,000" (not "₹0.75M": the "M"
branch needs at least 10^6), 750 000 000 to "₹750.00M", 4 321 to "₹4,321",
and an absent input to "N/A". -/
theorem c3_format_market_cap_examples :
    format_market_cap (some 2500000000000) = "₹2.50T" ∧
    format_market_cap (some 3200000000) = "₹3.20B" ∧
    format_market_cap (some 750000) = "₹750,000" ∧
    format_market_cap (some 750000000) = "₹750.00M" ∧
    format_market_cap (some 4321) = "₹4,321" ∧
    format_market_cap none = "N/A" := by
  refine ⟨?_, ?_, ?_, ?_, ?_, ?_⟩ <;> decide

/-- Claim C10: the falsy absent-value guard makes both formatters render the
genuine value 0 as "N/A" rather than "₹0"/"0", just as they render a truly
absent input. -/
theorem c10_zero_formats_as_na :
    format_market_cap (some 0) = "N/A" ∧
    format_volume (some 0) = "N/A" ∧
    format_market_cap none = "N/A" ∧
    format_volume none = "N/A" ∧
    format_market_cap (some 0) ≠ "₹0" ∧
    format_volume (some 0) ≠ "0" := by
  refine ⟨rfl, rfl, rfl, rfl, ?_, ?_⟩ <;> decide

/-! ## `main.py` watch-list assembly

Python (main.py 131-135):
`custom_tickers = [t.strip().upper() for t in manual_input.split(",") if t.strip()]`
`ticker_list = DEFAULT_TICKERS + additional_tickers + custom_tickers`.

The Python `str` operations are embedded structurally over the character
list of the string (Lean's own `String.trim`/`splitOn` are defined by
well-founded recursion on byte positions and do not reduce in the kernel):
`str.split(sep)` keeps empty fields and never merges separators
(`"".split(",") == [""]`), `str.strip()` drops whitespace from both ends,
`str.upper()` upper-cases character-wise, and an empty string is falsy. -/

/-- Python `str.strip()` on the character list of a string. -/
def pyStrip (s : List Char) : List Char :=
  ((s.dropWhile Char.isWhitespace).reverse.dropWhile Char.isWhitespace).reverse

/-- Python `str.split(sep)` (single-character separator) on character
lists: every occurrence of `sep` starts a new field, empty fields kept. -/
def pySplit (sep : Char) : List Char → List (List Char)
  | [] => [[]]
  | c :: rest =>
    let r := pySplit sep rest
    if c = sep then [] :: r
    else match r with
      | [] => [[c]]
      | g :: gs => (c :: g) :: gs

/-- Python `str.upper()` on character lists (ASCII, as the tickers are). -/
def pyUpper (s : List Char) : List Char := s.map Char.toUpper

/-- Embedding of the `custom_tickers` comprehension (main.py 134). -/
def custom_tickers (manual_input : String) : List String :=
  ((pySplit ',' manual_input.data).filter
      (fun t => !(pyStrip t).isEmpty)).map
    (fun t => String.mk (pyUpper (pyStrip t)))

/-- Embedding of `ticker_list` (main.py 135): plain list concatenation of
the defaults, the multi-select choices and the parsed free text. -/
def ticker_list (defaults additional : List String) (manual_input : String) :
    List String :=
  defaults ++ additional ++ custom_tickers manual_input

/-- Claim C6: the effective watch-list is defaults ++ popular ++ custom with
custom tokens trimmed, upper-cased and blanks dropped; order preserved and
duplicates kept.  Includes the spec's worked example and a duplicate-keeping
example, plus the characterization of which strings appear as custom
tickers. -/
theorem c6_ticker_list :
    ticker_list ["A.NS", "B.NS"] ["C.NS"] " d.ns, ,E.NS " =
      ["A.NS", "B.NS", "C.NS", "D.NS", "E.NS"] ∧
    ticker_list ["A.NS"] ["A.NS"] " a.ns " = ["A.NS", "A.NS", "A.NS"] ∧
    (∀ defaults additional m, ticker_list defaults additional m =
      defaults ++ additional ++ custom_tickers m) ∧
    (∀ m t, t ∈ custom_tickers m ↔
      ∃ raw ∈ pySplit ',' m.data, (pyStrip raw).isEmpty = false ∧
        t = String.mk (pyUpper (pyStrip raw))) := by
  refine ⟨by decide, by decide, fun _ _ _ => rfl, fun m t => ?_⟩
  unfold custom_tickers
  simp only [List.mem_map, List.mem_filter, Bool.not_eq_true']
  constructor
  · rintro ⟨raw, ⟨hmem, hne⟩, hmap⟩
    exact ⟨raw, hmem, hne, hmap.symm⟩
  · rintro ⟨raw, hmem, hne, hmap⟩
    exact ⟨raw, ⟨hmem, hne⟩, hmap.symm⟩

/-! ## `data_handler.get_live_price`

Python (data_handler.py 59-77).  The provider's minute-bar history is a
time-indexed frame with `Close` and `Volume` columns; we model it as a list
of bars in index order.  An empty frame yields `None`; otherwise the record
is built from `iloc[-1]` and, when a second bar exists, `iloc[-2]`. -/

/-- One minute bar of the provider's history frame. -/
structure Bar where
  time : Nat
  close : ℚ
  volume : Nat
  deriving DecidableEq, Repr

/-- The snapshot record returned by `get_live_price`. -/
structure LiveSnapshot where
  price : ℚ
  time : Nat
  change : ℚ
  pct_change : ℚ
  volume : Nat
  deriving DecidableEq, Repr

/-- Embedding of `get_live_price` (data_handler.py 59-77), as a function of
the minute-bar history the provider returns. -/
def get_live_price (hist : List Bar) : Option LiveSnapshot :=
  match hist.reverse with
  | [] => none
  | last :: rest =>
    some {
      price := last.close
      time := last.time
      change := match rest with
        | [] => 0
        | prev :: _ => last.close - prev.close
      pct_change := match rest with
        | [] => 0
        | prev :: _ => ((last.close - prev.close) / prev.close) * 100
      volume := last.volume }

/-- Claim C8: on an empty series `get_live_price` returns `none`; on a
single bar it returns that bar's price with change and percent change 0;
with two or more bars, change is last close minus the preceding close and
percent change is that difference over the preceding close times 100
(prior 100, current 105 gives +5.00%). -/
theorem c8_get_live_price :
    get_live_price [] = none ∧
    (∀ b : Bar, get_live_price [b] =
      some ⟨b.close, b.time, 0, 0, b.volume⟩) ∧
    (∀ (pre : List Bar) (b2 b1 : Bar),
      get_live_price (pre ++ [b2, b1]) =
        some ⟨b1.close, b1.time, b1.close - b2.close,
              ((b1.close - b2.close) / b2.close) * 100, b1.volume⟩) ∧
    get_live_price [⟨0, 100, 10⟩, ⟨60, 105, 20⟩] =
      some ⟨105, 60, 5, 5, 20⟩ := by
  refine ⟨rfl, fun b => rfl, fun pre b2 b1 => ?_, ?_⟩
  · simp [get_live_price, List.reverse_append]
  · simp [get_live_price]
    norm_num

/-! ## `charts.create_live_chart`

Python (charts.py 91-155).  The figure's traces are what the claims are
about: a "Price" trace always, an "SMA 20" trace when `'sma' in indicators
and len(data) > 20` with values `data['price'].rolling(window=20).mean()`
(the first 19 entries are NaN, modelled as `none`), and an "EMA 50" trace
when `'ema' in indicators and len(data) > 50` with values
`data['price'].ewm(span=50, adjust=False).mean()` (recurrence
`e₀ = x₀`, `eᵢ = (1-α)·eᵢ₋₁ + α·xᵢ`, `α = 2/(span+1)`). -/

/-- One trace of a chart figure: its legend name and its y-values
(`none` = NaN). -/
structure Trace where
  name : String
  values : List (Option ℚ)
  deriving DecidableEq, Repr

/-- pandas `Series.rolling(window=w).mean()`: entry `i` is the mean of the
trailing `w` samples once `w` samples exist, NaN (`none`) before that. -/
def rollingMean (w : Nat) (xs : List ℚ) : List (Option ℚ) :=
  (List.range xs.length).map (fun i =>
    if w ≤ i + 1 then some (((xs.take (i + 1)).drop (i + 1 - w)).sum / w) else none)

/-- The smoothing factor pandas uses for `ewm(span=s)`: `α = 2/(s+1)`. -/
def ewmAlpha (span : Nat) : ℚ := 2 / (span + 1)

/-- pandas `Series.ewm(span=s, adjust=False).mean()`. -/
def ewmMean (span : Nat) : List ℚ → List ℚ
  | [] => []
  | x :: rest =>
    List.scanl (fun e y => (1 - ewmAlpha span) * e + ewmAlpha span * y) x rest

/-- Embedding of `create_live_chart` (charts.py 91-130), restricted to the
traces it adds to the figure. -/
def create_live_chart (prices : List ℚ) (indicators : List String) :
    List Trace :=
  [⟨"Price", prices.map some⟩] ++
  (if "sma" ∈ indicators ∧ 20 < prices.length
    then [⟨"SMA 20", rollingMean 20 prices⟩] else []) ++
  (if "ema" ∈ indicators ∧ 50 < prices.length
    then [⟨"EMA 50", (ewmMean 50 prices).map some⟩] else [])

/-- Claim C7: with the "sma" indicator, fewer than 21 points produce no
"SMA 20" trace and 21 or more produce exactly one, whose entry at each
index `i ≥ 19` (the 20th point on) is the trailing 20-sample mean of the
price column; the "ema" indicator produces an "EMA 50" trace (span-50,
`adjust=False` weighting) exactly when at least 51 points exist. -/
theorem c7_live_chart_indicators (prices : List ℚ) :
    (prices.length < 21 →
      (create_live_chart prices ["sma"]).filter (fun t => t.name == "SMA 20")
        = []) ∧
    (21 ≤ prices.length →
      (create_live_chart prices ["sma"]).filter (fun t => t.name == "SMA 20")
        = [⟨"SMA 20", rollingMean 20 prices⟩]) ∧
    (∀ i, 19 ≤ i → i < prices.length →
      (rollingMean 20 prices)[i]? =
        some (some (((prices.take (i + 1)).drop (i + 1 - 20)).sum / 20))) ∧
    ((create_live_chart prices ["ema"]).filter (fun t => t.name == "EMA 50")
        ≠ [] ↔ 51 ≤ prices.length) := by
  refine ⟨fun h => ?_, fun h => ?_, fun i h1 h2 => ?_, ?_⟩
  · unfold create_live_chart
    rw [if_neg (by simp; omega), if_neg (by simp)]
    simp [List.filter]
  · unfold create_live_chart
    rw [if_pos (⟨by simp, by omega⟩ : _ ∧ _), if_neg (by simp)]
    simp [List.filter]
  · unfold rollingMean
    simp [List.getElem?_map, List.getElem?_range, h2]
    omega
  · unfold create_live_chart
    rw [if_neg (by simp)]
    by_cases h : 50 < prices.length
    · rw [if_pos (by simp; omega)]
      simp [List.filter]
      omega
    · rw [if_neg (by simp; omega)]
      simp [List.filter]
      omega

/-- Witness for `c7_live_chart_indicators` on constant series of lengths
20, 21 and 51. -/
theorem c7_live_chart_indicators_witness :
    ((create_live_chart (List.replicate 20 (1 : ℚ)) ["sma"]).filter
        (fun t => t.name == "SMA 20") = []) ∧
    ((create_live_chart (List.replicate 21 (1 : ℚ)) ["sma"]).filter
        (fun t => t.name == "SMA 20") =
      [⟨"SMA 20", rollingMean 20 (List.replicate 21 (1 : ℚ))⟩]) ∧
    (rollingMean 20 (List.replicate 21 (1 : ℚ)))[19]? = some (some 1) ∧
    ((create_live_chart (List.replicate 51 (1 : ℚ)) ["ema"]).filter
        (fun t => t.name == "EMA 50") ≠ []) :=
  ⟨(c7_live_chart_indicators (List.replicate 20 1)).1 (by simp),
   (c7_live_chart_indicators (List.replicate 21 1)).2.1 (by simp),
   ((c7_live_chart_indicators (List.replicate 21 1)).2.2.1 19 (by omega)
      (by simp)).trans (by norm_num),
   (c7_live_chart_indicators (List.replicate 51 1)).2.2.2.mpr (by simp)⟩

/-! ## `charts.create_comparison_chart`

Python (charts.py 159-210).  The claims concern the y-column
normalization (lines 162-164): `if df[y_col].max() <= 1: df[y_col] =
df[y_col] * 100`.  The gate is the *signed maximum* of the column, not the
maximum magnitude. -/

/-- pandas `Series.max()` over a column without NaNs: `none` on an empty
series (where pandas yields NaN and `NaN <= 1` is false). -/
def seriesMax : List ℚ → Option ℚ
  | [] => none
  | x :: xs => some (xs.foldl max x)

/-- The y-column of the figure `create_comparison_chart` builds
(charts.py 162-164): scaled by 100 exactly when the column's maximum is
at most 1. -/
def create_comparison_chart_yvalues (ys : List ℚ) : List ℚ :=
  match seriesMax ys with
  | none => ys
  | some m => if m ≤ 1 then ys.map (fun y => y * 100) else ys

/-- Claim C4, counterexample: the column [-5, 1/2] has an element of
magnitude above 1, so the claim says no scaling is applied; but its
*maximum* is 1/2 ≤ 1, so the code multiplies every value by 100. -/
theorem c4_counterexample :
    create_comparison_chart_yvalues [-5, 1/2] = [-500, 50] ∧
    ¬(∀ y ∈ ([-5, 1/2] : List ℚ), |y| ≤ 1) := by
  constructor
  · have hmax : seriesMax [-5, 1/2] = some (1/2) := by
      simp [seriesMax]
      norm_num
    unfold create_comparison_chart_yvalues
    rw [hmax]
    norm_num
  · push_neg
    refine ⟨-5, ?_, ?_⟩
    · simp
    · norm_num

/-- Claim C4, amended: `create_comparison_chart` multiplies the value column
by 100 exactly when the column's (signed) maximum is at most 1; when the
maximum exceeds 1 the column is left unscaled.  (The gate ignores the
magnitude of negative values.) -/
theorem c4_comparison_scaling (ys : List ℚ) (m : ℚ)
    (h : seriesMax ys = some m) :
    (m ≤ 1 → create_comparison_chart_yvalues ys = ys.map (fun y => y * 100)) ∧
    (1 < m → create_comparison_chart_yvalues ys = ys) := by
  unfold create_comparison_chart_yvalues
  rw [h]
  constructor
  · intro hm; simp only [if_pos hm]
  · intro hm; simp only [if_neg (not_le.mpr hm)]

/-- Witness for `c4_comparison_scaling`: [0, 1/2] is scaled, [1/2, 2] is
not. -/
theorem c4_comparison_scaling_witness :
    create_comparison_chart_yvalues [0, 1/2] = [0, 50] ∧
    create_comparison_chart_yvalues [1/2, 2] = [1/2, 2] :=
  ⟨((c4_comparison_scaling [0, 1/2] (1/2)
      (by simp [seriesMax])).1 (by norm_num)).trans (by norm_num),
   (c4_comparison_scaling [1/2, 2] 2
      (by simp [seriesMax]; norm_num)).2 (by norm_num)⟩

/-! ## `main.update_live_data` and the Session Cache

Python (main.py 111-113, 167-184).  The session state is the price map
`st.session_state.price_data` and the timestamp
`st.session_state.last_update`.  Timestamps are microsecond counts;
`(current_time - last_update).seconds` of a non-negative `timedelta` is
`(Δµs / 10^6) % 86400` (the `seconds` component after normalisation into
days/seconds/microseconds).  The provider responses of one refresh are a
function from ticker to the optional `get_live_price` snapshot.  The
second component of the result counts the `get_live_price` calls the step
issued. -/

/-- One cached entry of `st.session_state.price_data` (main.py 175-180). -/
structure CachedQuote where
  price : ℚ
  change : ℚ
  pct_change : ℚ
  time : Nat
  deriving DecidableEq, Repr

/-- The Session Cache: price map plus last-refresh timestamp. -/
structure SessionState where
  price_data : List (String × CachedQuote)
  last_update : Nat
  deriving DecidableEq, Repr

/-- Python `timedelta.seconds` of a non-negative microsecond delta. -/
def tdSeconds (deltaUs : Nat) : Nat := (deltaUs / 1000000) % 86400

/-- The fresh map `new_data` built by the refresh loop (main.py 171-180):
one entry per watch-list ticker whose fetch returned a snapshot, in
watch-list order. -/
def fetchedQuotes (tickers : List String)
    (fetch : String → Option LiveSnapshot) : List (String × CachedQuote) :=
  tickers.filterMap (fun t => (fetch t).map
    (fun d => (t, ⟨d.price, d.change, d.pct_change, d.time⟩)))

/-- Embedding of `update_live_data` (main.py 167-184).  Returns the new
session state and the number of provider fetches issued. -/
def update_live_data (st : SessionState) (current_time refresh_rate : Nat)
    (tickers : List String) (fetch : String → Option LiveSnapshot) :
    SessionState × Nat :=
  if refresh_rate ≤ tdSeconds (current_time - st.last_update) then
    if (fetchedQuotes tickers fetch).isEmpty then (st, tickers.length)
    else (⟨fetchedQuotes tickers fetch, current_time⟩, tickers.length)
  else (st, 0)

/-- A ticker whose fetch returned nothing has no entry in the fresh map. -/
theorem lookup_fetchedQuotes_eq_none (tickers : List String)
    (fetch : String → Option LiveSnapshot) (t : String)
    (h : fetch t = none) :
    (fetchedQuotes tickers fetch).lookup t = none := by
  induction tickers with
  | nil => rfl
  | cons a as ih =>
    unfold fetchedQuotes at ih ⊢
    cases hfa : fetch a with
    | none => simpa [List.filterMap_cons, hfa] using ih
    | some d =>
      have hne : (t == a) = false := by
        rw [beq_eq_false_iff_ne]
        intro e
        rw [e, hfa] at h
        cases h
      simp [List.filterMap_cons, hfa, List.lookup, hne, ih]


/-- The provider responses of the C2 scenario: "A" returns nothing, "B"
returns a snapshot. -/
def c2Fetch : String → Option LiveSnapshot := fun t =>
  if t = "B" then some ⟨10, 300, 1, 5, 20⟩ else none

/-- The Session Cache of the C2 scenario: a cached snapshot for "A". -/
def c2State : SessionState := ⟨[("A", ⟨5, 0, 0, 0⟩)], 0⟩

/-- Claim C2, counterexample: the cache holds a snapshot for "A"; in the next
refresh "A" returns no data while "B" succeeds.  The claim says "A"'s old
snapshot is still present afterwards, but the wholesale replacement
(`st.session_state.price_data = new_data`) drops it: the lookup for "A"
returns nothing. -/
theorem c2_counterexample :
    c2Fetch "A" = none ∧
    (c2Fetch "B").isSome = true ∧
    (c2State.price_data.lookup "A").isSome = true ∧
    ((update_live_data c2State 10000000 5 ["A", "B"] c2Fetch |>.1)
        |>.price_data.lookup "A") = none := by
  refine ⟨rfl, rfl, rfl, ?_⟩
  simp [update_live_data, fetchedQuotes, c2Fetch, c2State, tdSeconds,
    List.lookup]

/-- Claim C2, amended: when the refresh fires and at least one ticker
returns data, the price map is replaced wholesale by exactly the tickers
that returned data and `last_update` is reset; a ticker whose fetch
returned nothing is absent from the map afterwards even if it was cached
before.  (Only when *no* ticker returns data does the previous map
survive.) -/
theorem c2_wholesale_replacement (st : SessionState) (cur r : Nat)
    (tickers : List String) (fetch : String → Option LiveSnapshot)
    (hthr : r ≤ tdSeconds (cur - st.last_update))
    (hne : fetchedQuotes tickers fetch ≠ []) :
    (update_live_data st cur r tickers fetch).1.price_data =
      fetchedQuotes tickers fetch ∧
    (update_live_data st cur r tickers fetch).1.last_update = cur ∧
    (∀ t, fetch t = none →
      ((update_live_data st cur r tickers fetch).1.price_data.lookup t)
        = none) ∧
    (∀ st' cur' r' fetch',
      fetchedQuotes tickers fetch' = [] →
        (update_live_data st' cur' r' tickers fetch').1 = st') := by
  have hemp : (fetchedQuotes tickers fetch).isEmpty = false := by
    rw [List.isEmpty_eq_false]
    exact hne
  refine ⟨?_, ?_, fun t ht => ?_, fun st' cur' r' fetch' hnil => ?_⟩
  · simp [update_live_data, hthr, hemp]
  · simp [update_live_data, hthr, hemp]
  · simp only [update_live_data, hthr, if_true, if_pos, hemp,
      Bool.false_eq_true, if_false]
    exact lookup_fetchedQuotes_eq_none tickers fetch t ht
  · unfold update_live_data
    rw [hnil]
    simp only [List.isEmpty_nil, if_true]
    split <;> rfl

/-- The provider responses of the C2 witness scenario: only "Y" returns
data. -/
def c2WitnessFetch : String → Option LiveSnapshot := fun t =>
  if t = "Y" then some ⟨9, 42, 2, 1, 3⟩ else none

/-- Witness for `c2_wholesale_replacement`: cache holds "X", only "Y"
returns data, and afterwards "X" is gone and `last_update` is reset. -/
theorem c2_wholesale_replacement_witness :
    ((update_live_data ⟨[("X", ⟨7, 0, 0, 0⟩)], 0⟩ 6000000 5 ["Y"]
        c2WitnessFetch |>.1) |>.price_data.lookup "X") = none ∧
    ((update_live_data ⟨[("X", ⟨7, 0, 0, 0⟩)], 0⟩ 6000000 5 ["Y"]
        c2WitnessFetch |>.1) |>.last_update) = 6000000 :=
  ⟨(c2_wholesale_replacement ⟨[("X", ⟨7, 0, 0, 0⟩)], 0⟩ 6000000 5 ["Y"]
      c2WitnessFetch (by decide) (by decide)).2.2.1 "X" (by decide),
   (c2_wholesale_replacement ⟨[("X", ⟨7, 0, 0, 0⟩)], 0⟩ 6000000 5 ["Y"]
      c2WitnessFetch (by decide) (by decide)).2.1⟩

/-- Claim C5: a fetch is issued only when, measured by the code's
`timedelta.seconds` test, at least `r` seconds have elapsed since
`last_update` (so at least `r·10^6` microseconds really elapsed); an
attempt strictly inside the `r`-second window issues no fetch and leaves
the state untouched; and `last_update` moves only on a firing refresh
whose fresh map is non-empty, in which case it becomes the current time. -/
theorem c5_refresh_throttling (st : SessionState) (cur r : Nat)
    (tickers : List String) (fetch : String → Option LiveSnapshot)
    (hclock : st.last_update ≤ cur) :
    ((update_live_data st cur r tickers fetch).2 ≠ 0 →
      st.last_update + r * 1000000 ≤ cur) ∧
    (cur - st.last_update < r * 1000000 →
      (update_live_data st cur r tickers fetch).2 = 0 ∧
      (update_live_data st cur r tickers fetch).1 = st) ∧
    ((update_live_data st cur r tickers fetch).1.last_update
        ≠ st.last_update →
      r ≤ tdSeconds (cur - st.last_update) ∧
      fetchedQuotes tickers fetch ≠ [] ∧
      (update_live_data st cur r tickers fetch).1 =
        ⟨fetchedQuotes tickers fetch, cur⟩) := by
  refine ⟨fun hfired => ?_, fun hwin => ?_, fun hmoved => ?_⟩
  · by_cases hc : r ≤ tdSeconds (cur - st.last_update)
    · unfold tdSeconds at hc
      omega
    · exfalso
      apply hfired
      simp [update_live_data, hc]
  · have hc : ¬ r ≤ tdSeconds (cur - st.last_update) := by
      unfold tdSeconds
      omega
    simp [update_live_data, hc]
  · by_cases hc : r ≤ tdSeconds (cur - st.last_update)
    · by_cases hemp : (fetchedQuotes tickers fetch).isEmpty
      · exfalso
        apply hmoved
        simp [update_live_data, hc, hemp]
      · refine ⟨hc, ?_, ?_⟩
        · rw [← List.isEmpty_eq_false]
          simpa using hemp
        · simp [update_live_data, hc, hemp]
    · exfalso
      apply hmoved
      simp [update_live_data, hc]

/-- The provider responses of the C5 witness scenario: every ticker
returns a snapshot. -/
def c5Fetch : String → Option LiveSnapshot := fun _ => some ⟨9, 42, 2, 1, 3⟩

/-- Witness for `c5_refresh_throttling`: with refresh rate 5, an attempt
2 seconds after the last update issues no fetch and changes nothing; one
6 seconds after really is ≥ 5·10^6 µs later and advances `last_update`. -/
theorem c5_refresh_throttling_witness :
    (update_live_data ⟨[], 0⟩ 2000000 5 ["Z"] c5Fetch).2 = 0 ∧
    (update_live_data ⟨[], 0⟩ 2000000 5 ["Z"] c5Fetch).1 = ⟨[], 0⟩ ∧
    (0 + 5 * 1000000 ≤ 6000000) ∧
    (update_live_data ⟨[], 0⟩ 6000000 5 ["Z"] c5Fetch).1 =
      ⟨fetchedQuotes ["Z"] c5Fetch, 6000000⟩ :=
  ⟨((c5_refresh_throttling ⟨[], 0⟩ 2000000 5 ["Z"] c5Fetch
      (Nat.zero_le _)).2.1 (by decide)).1,
   ((c5_refresh_throttling ⟨[], 0⟩ 2000000 5 ["Z"] c5Fetch
      (Nat.zero_le _)).2.1 (by decide)).2,
   (c5_refresh_throttling ⟨[], 0⟩ 6000000 5 ["Z"] c5Fetch
      (Nat.zero_le _)).1 (by decide),
   ((c5_refresh_throttling ⟨[], 0⟩ 6000000 5 ["Z"] c5Fetch
      (Nat.zero_le _)).2.2 (by decide)).2.2⟩


/-! ## `data_handler.get_stock_metrics`

Python (data_handler.py 105-130).  The provider interaction — `stock.info`
and one year of daily history — is the input; a raised provider exception
is `Except.error`, which the function's `try/except` turns into `None`.
Python's falsy-`or` (`fifty_two_week_high or info.get(...)`) falls back not
only when the history was empty (`None`) but also when the computed
extremum is the number 0. -/

/-- A metrics field: a number, a string (sector/industry), or the
`'N/A'` placeholder. -/
inductive MVal where
  | num (q : ℚ)
  | str (s : String)
  | na
  deriving DecidableEq, Repr

/-- The fields of the provider's `stock.info` record the function reads;
`none` = key absent. -/
structure TickerInfo where
  currentPrice : Option ℚ
  regularMarketPrice : Option ℚ
  fiftyTwoWeekHigh : Option ℚ
  fiftyTwoWeekLow : Option ℚ
  trailingPE : Option ℚ
  forwardPE : Option ℚ
  marketCap : Option Nat
  volume : Option Nat
  averageVolume : Option Nat
  beta : Option ℚ
  dividendYield : Option ℚ
  sector : Option String
  industry : Option String
  deriving DecidableEq, Repr

/-- One daily bar of the one-year history (only the columns read). -/
structure DailyBar where
  high : ℚ
  low : ℚ
  deriving DecidableEq, Repr

/-- pandas `Series.min()` without NaNs; `none` on an empty series. -/
def seriesMin : List ℚ → Option ℚ
  | [] => none
  | x :: xs => some (xs.foldl min x)

/-- Python `info.get(key, fallback)` for a numeric field. -/
def optNumOr (x : Option ℚ) (fallback : MVal) : MVal :=
  match x with
  | some v => MVal.num v
  | none => fallback

/-- Python `x or fallback` for an optional number `x`: falls back when `x`
is `None` *or the falsy number 0*. -/
def pyOrNum (x : Option ℚ) (fallback : MVal) : MVal :=
  match x with
  | some v => if v = 0 then fallback else MVal.num v
  | none => fallback

/-- Two-decimal rendering of a non-negative rational,
`f"{q:.2f}"`-style. -/
def fmtQ2 (q : ℚ) : String := formatTwoDecimals q.num.toNat q.den

/-- The record `get_stock_metrics` returns on success. -/
structure StockMetrics where
  currentPrice : MVal
  fiftyTwoWeekHigh : MVal
  fiftyTwoWeekLow : MVal
  peValue : MVal
  marketCap : String
  volume : String
  beta : MVal
  dividendYield : String
  sector : MVal
  industry : MVal
  deriving DecidableEq, Repr

/-- Embedding of `get_stock_metrics` (data_handler.py 105-130) as a
function of the provider's response: `Except.error` models a raised
exception anywhere in the fetch, `Except.ok` carries `stock.info` and the
one-year daily history. -/
def get_stock_metrics
    (fetched : Except String (TickerInfo × List DailyBar)) :
    Option StockMetrics :=
  match fetched with
  | .error _ => none
  | .ok (info, hist) =>
    some {
      currentPrice :=
        optNumOr info.currentPrice (optNumOr info.regularMarketPrice .na)
      fiftyTwoWeekHigh :=
        pyOrNum (seriesMax (hist.map DailyBar.high))
          (optNumOr info.fiftyTwoWeekHigh .na)
      fiftyTwoWeekLow :=
        pyOrNum (seriesMin (hist.map DailyBar.low))
          (optNumOr info.fiftyTwoWeekLow .na)
      peValue := optNumOr info.trailingPE (optNumOr info.forwardPE .na)
      marketCap := format_market_cap info.marketCap
      volume := format_volume (info.volume <|> info.averageVolume)
      beta := optNumOr info.beta .na
      dividendYield :=
        match info.dividendYield with
        | some dy => if dy = 0 then "N/A" else fmtQ2 (dy * 100) ++ "%"
        | none => "N/A"
      sector := match info.sector with
        | some s => MVal.str s
        | none => MVal.na
      industry := match info.industry with
        | some s => MVal.str s
        | none => MVal.na }

/-- The `stock.info` of the C9 scenario: the provider reports a 52-week high
of 123 and low of 45. -/
def c9Info : TickerInfo :=
  ⟨some 50, none, some 123, some 45, none, none, none, none, none, none,
   none, none, none⟩

/-- Claim C9, counterexample: with a *non-empty* one-year history whose
`High` column is all 0, `max(High) = 0` is falsy, so
`fifty_two_week_high or info.get('fiftyTwoWeekHigh', 'N/A')` falls back to
the provider's 123 — the claim says a non-empty history always yields the
computed `max(High)`, i.e. 0. -/
theorem c9_counterexample :
    ([(⟨0, 5⟩ : DailyBar)] ≠ []) ∧
    seriesMax ([(⟨0, 5⟩ : DailyBar)].map DailyBar.high) = some 0 ∧
    (get_stock_metrics (.ok (c9Info, [⟨0, 5⟩]))).map
        StockMetrics.fiftyTwoWeekHigh = some (MVal.num 123) ∧
    MVal.num 123 ≠ MVal.num 0 := by
  refine ⟨by simp, by simp [seriesMax], ?_, by simp⟩
  simp [get_stock_metrics, c9Info, seriesMax, seriesMin, pyOrNum, optNumOr]

/-- Claim C9, amended: `get_stock_metrics` never raises — a provider
exception yields the explicit no-metrics result `none`, and every
successful fetch yields a full record; the 52-week high/low equal the
history extrema `max(High)`/`min(Low)` whenever the history is non-empty
*and the extremum is nonzero*, and fall back to the provider-reported
52-week fields when the history is empty (the falsy-`or` also falls back
on a zero extremum). -/
theorem c9_metrics_robust (e : String) (info : TickerInfo)
    (hist : List DailyBar) :
    get_stock_metrics (.error e) = none ∧
    (get_stock_metrics (.ok (info, hist))).isSome = true ∧
    (∀ m, get_stock_metrics (.ok (info, hist)) = some m →
      (∀ h, seriesMax (hist.map DailyBar.high) = some h → h ≠ 0 →
        m.fiftyTwoWeekHigh = MVal.num h) ∧
      (∀ l, seriesMin (hist.map DailyBar.low) = some l → l ≠ 0 →
        m.fiftyTwoWeekLow = MVal.num l) ∧
      (hist = [] →
        m.fiftyTwoWeekHigh = optNumOr info.fiftyTwoWeekHigh .na ∧
        m.fiftyTwoWeekLow = optNumOr info.fiftyTwoWeekLow .na)) := by
  refine ⟨rfl, rfl, fun m hm => ?_⟩
  have hm' : m = (get_stock_metrics (.ok (info, hist))).get (by rfl) := by
    rw [Option.eq_some_iff_get_eq] at hm
    exact hm.2.symm
  subst hm'
  refine ⟨fun h hh hh0 => ?_, fun l hl hl0 => ?_, fun hnil => ?_⟩
  · simp [get_stock_metrics, hh, pyOrNum, hh0]
  · simp [get_stock_metrics, hl, pyOrNum, hl0]
  · subst hnil
    simp [get_stock_metrics, seriesMax, seriesMin, pyOrNum]

/-- Witness for `c9_metrics_robust`: an error returns `none`; a history
[high 10, low 2] with nonzero extrema yields 52-week high 10 and low 2. -/
theorem c9_metrics_robust_witness :
    get_stock_metrics (.error "boom") = none ∧
    ((get_stock_metrics (.ok (c9Info, [⟨10, 2⟩]))).isSome = true) ∧
    ((get_stock_metrics (.ok (c9Info, [(⟨10, 2⟩ : DailyBar)]))).get
        (by rfl)).fiftyTwoWeekHigh = MVal.num 10 ∧
    ((get_stock_metrics (.ok (c9Info, [(⟨10, 2⟩ : DailyBar)]))).get
        (by rfl)).fiftyTwoWeekLow = MVal.num 2 :=
  ⟨(c9_metrics_robust "boom" c9Info [⟨10, 2⟩]).1,
   (c9_metrics_robust "boom" c9Info [⟨10, 2⟩]).2.1,
   (((c9_metrics_robust "boom" c9Info [⟨10, 2⟩]).2.2 _ rfl).1 10
      (by simp [seriesMax]) (by norm_num)),
   (((c9_metrics_robust "boom" c9Info [⟨10, 2⟩]).2.2 _ rfl).2.1 2
      (by simp [seriesMin]) (by norm_num))⟩

end StockDashboard
